import Mathlib

/-!
Relay metrics (`src/feature/relay/relay_metrics.c`).

A shallow embedding of the relay metrics scrape: the static table `base_metrics`,
the three fill functions, `fill_store`, `relay_metrics_get_stores`,
`relay_metrics_init` and `relay_metrics_free`.

The metrics store library (`lib/metrics`), the onion handshake constants, the
key enumeration of `relay_metrics.h` and the counters of the collaborating
subsystems are not part of the sources at hand.  The store operations are
modelled from the specification; what the collaborating subsystems and the
label formatter return is a parameter (`Env`).
-/

namespace RelayMetrics

/-! ## Data model -/

/-- The kind of a metric (`metrics_type_t`). -/
inductive metrics_type_t where
  | METRICS_TYPE_COUNTER
  | METRICS_TYPE_GAUGE
  deriving DecidableEq, Repr

open metrics_type_t

/-- One record of a store (`metrics_store_entry_t`): name, kind, help text,
the labels in insertion order, and the numeric value. -/
structure metrics_store_entry_t where
  type : metrics_type_t
  name : String
  help : String
  labels : List String
  value : Int
  deriving DecidableEq, Repr

/-- Modelled from the spec: the store type `metrics_store_t` of `lib/metrics`
is not among the sources; the spec describes it as the owner of an ordered
sequence of records, which is what it is here. -/
abbrev metrics_store_t := List metrics_store_entry_t

/-- A handle on a record of a store (the `metrics_store_entry_t *` that
`metrics_store_add` returns): the position of the record in the sequence. -/
abbrev sentry_t := Nat

/-- Modelled from the spec: `metrics_store_reset` of `lib/metrics` is not among
the sources; `reset()` discards all currently held records. -/
def metrics_store_reset (_store : metrics_store_t) : metrics_store_t := []

/-- Modelled from the spec: `metrics_store_add` of `lib/metrics` is not among
the sources; `add(kind, name, help)` creates a new record with an empty label
set and the default value (taken as 0), appends it to the store and returns a
handle on it. -/
def metrics_store_add (store : metrics_store_t) (type : metrics_type_t)
    (name help : String) : metrics_store_t × sentry_t :=
  (store ++ [{ type := type, name := name, help := help, labels := [], value := 0 }],
   store.length)

/-- Modelled from the spec: `metrics_store_entry_add_label` of `lib/metrics` is
not among the sources; `addLabel` appends one label to the record's label set,
in call order, without deduplication.  The label is stored by value. -/
def metrics_store_entry_add_label (store : metrics_store_t) (sentry : sentry_t)
    (label : String) : metrics_store_t :=
  store.modify (fun e => { e with labels := e.labels ++ [label] }) sentry

/-- Modelled from the spec: `metrics_store_entry_update` of `lib/metrics` is
not among the sources; `update(value)` overwrites the record's numeric value,
last write wins. -/
def metrics_store_entry_update (store : metrics_store_t) (sentry : sentry_t)
    (value : Int) : metrics_store_t :=
  store.modify (fun e => { e with value := value }) sentry

/-! ## What the file reads from outside itself -/

/-- The accessors and counters of the collaborating subsystems that the fill
functions read, and the label formatter `metrics_format_label` of
`lib/metrics`.  None of them is among the sources, so each is a parameter; the
numeric results are carried as integers, unchanged. -/
structure Env where
  metrics_format_label : String → String → String
  get_n_open_sockets : Int
  get_max_sockets : Int
  rep_hist_get_circuit_handshake_assigned : Nat → Int
  rep_hist_get_circuit_handshake_dropped : Nat → Int
  oom_stats_n_bytes_removed_cell : Int
  oom_stats_n_bytes_removed_dns : Int
  oom_stats_n_bytes_removed_geoip : Int
  oom_stats_n_bytes_removed_hsdir : Int

/-! ## Constants declared outside the file -/

/-- Modelled from the spec: the handshake type constants of `core/or` are not
among the sources; the spec fixes three known handshake kinds, enumerated in
the order tap, fast, ntor. -/
def ONION_HANDSHAKE_TYPE_TAP : Nat := 0

/-- Modelled from the spec: second of the three known handshake kinds. -/
def ONION_HANDSHAKE_TYPE_FAST : Nat := 1

/-- Modelled from the spec: third of the three known handshake kinds. -/
def ONION_HANDSHAKE_TYPE_NTOR : Nat := 2

/-- Modelled from the spec: the largest handshake type; the spec knows three
kinds and no fourth. -/
def MAX_ONION_HANDSHAKE_TYPE : Nat := 2

/-- Modelled from the spec: the key enumeration `relay_metrics_key_t` of
`relay_metrics.h` is not among the sources; the spec (and the comment on
`base_metrics`) fix every key to the position of its descriptor in the table. -/
def RELAY_METRICS_NUM_OOM_BYTES : Nat := 0

/-- Modelled from the spec: key of the onionskins descriptor, see
`RELAY_METRICS_NUM_OOM_BYTES`. -/
def RELAY_METRICS_NUM_ONIONSKINS : Nat := 1

/-- Modelled from the spec: key of the sockets descriptor, see
`RELAY_METRICS_NUM_OOM_BYTES`. -/
def RELAY_METRICS_NUM_SOCKETS : Nat := 2

/-- Modelled from the spec: the macro `METRICS_NAME` of `lib/metrics` is not
among the sources; the spec asks for a stable string identifier, here the
macro's argument under the prefix `tor_`. -/
def METRICS_NAME (val : String) : String := "tor_" ++ val

/-! ## The descriptor table -/

/-- The fill functions a descriptor can point to (a function pointer is the
name of one of the three fill functions of the file). -/
inductive fill_fn_t where
  | fill_socket_values
  | fill_onionskins_values
  | fill_oom_values
  deriving DecidableEq, Repr

/-- A descriptor (`relay_metrics_entry_t`); `fill_fn` is `none` for a null
function pointer. -/
structure relay_metrics_entry_t where
  key : Nat
  type : metrics_type_t
  name : String
  help : String
  fill_fn : Option fill_fn_t
  deriving DecidableEq, Repr

/-- The static array `base_metrics`. -/
def base_metrics : List relay_metrics_entry_t :=
  [ { key := RELAY_METRICS_NUM_OOM_BYTES,
      type := METRICS_TYPE_COUNTER,
      name := METRICS_NAME "relay_load_oom_bytes_total",
      help := "Total number of bytes the OOM has freed by subsystem",
      fill_fn := some fill_fn_t.fill_oom_values },
    { key := RELAY_METRICS_NUM_ONIONSKINS,
      type := METRICS_TYPE_COUNTER,
      name := METRICS_NAME "relay_load_onionskins_total",
      help := "Total number of onionskins handled",
      fill_fn := some fill_fn_t.fill_onionskins_values },
    { key := RELAY_METRICS_NUM_SOCKETS,
      type := METRICS_TYPE_GAUGE,
      name := METRICS_NAME "relay_load_socket_total",
      help := "Total number of sockets",
      fill_fn := some fill_fn_t.fill_socket_values } ]

/-- The number of entries of `base_metrics` (`ARRAY_LENGTH(base_metrics)`). -/
def num_base_metrics : Nat := base_metrics.length

/-! ## The fill functions -/

/-- Helper function to convert a handshake type into a string; `none` is the
`tor_assert_unreached()` of the default branch. -/
def handshake_type_to_str (type : Nat) : Option String :=
  if type = ONION_HANDSHAKE_TYPE_TAP then some "tap"
  else if type = ONION_HANDSHAKE_TYPE_FAST then some "fast"
  else if type = ONION_HANDSHAKE_TYPE_NTOR then some "ntor"
  else none

/-- Fill function for the `RELAY_METRICS_NUM_SOCKETS` metrics. -/
def fill_socket_values (x : Env) (the_store : metrics_store_t) : metrics_store_t :=
  let rentry := base_metrics.get ⟨RELAY_METRICS_NUM_SOCKETS, by decide⟩
  let (the_store, sentry) :=
    metrics_store_add the_store rentry.type rentry.name rentry.help
  let the_store := metrics_store_entry_add_label the_store sentry
    (x.metrics_format_label "state" "opened")
  let the_store := metrics_store_entry_update the_store sentry x.get_n_open_sockets
  let (the_store, sentry) :=
    metrics_store_add the_store rentry.type rentry.name rentry.help
  metrics_store_entry_update the_store sentry x.get_max_sockets

/-- The loop of `fill_onionskins_values`,
`for (uint16_t t = 0; t <= MAX_ONION_HANDSHAKE_TYPE; t++)`, from the value `t`
on.  The first argument bounds the number of loop tests still allowed; `none`
is a run that hits `tor_assert_unreached()` or exhausts that bound. -/
def fill_onionskins_values_loop (x : Env) (rentry : relay_metrics_entry_t) :
    Nat → Nat → metrics_store_t → Option metrics_store_t
  | 0, _, _ => none
  | fuel + 1, t, the_store =>
    if t ≤ MAX_ONION_HANDSHAKE_TYPE then
      match handshake_type_to_str t with
      | none => none
      | some str =>
        let type_label := x.metrics_format_label "type" str
        let (the_store, sentry) :=
          metrics_store_add the_store rentry.type rentry.name rentry.help
        let the_store := metrics_store_entry_add_label the_store sentry type_label
        let the_store := metrics_store_entry_add_label the_store sentry
          (x.metrics_format_label "action" "processed")
        let the_store := metrics_store_entry_update the_store sentry
          (x.rep_hist_get_circuit_handshake_assigned t)
        let (the_store, sentry) :=
          metrics_store_add the_store rentry.type rentry.name rentry.help
        let the_store := metrics_store_entry_add_label the_store sentry type_label
        let the_store := metrics_store_entry_add_label the_store sentry
          (x.metrics_format_label "action" "dropped")
        let the_store := metrics_store_entry_update the_store sentry
          (x.rep_hist_get_circuit_handshake_dropped t)
        fill_onionskins_values_loop x rentry fuel ((t + 1) % 2 ^ 16) the_store
    else some the_store

/-- Fill function for the `RELAY_METRICS_NUM_ONIONSKINS` metrics. -/
def fill_onionskins_values (x : Env) (the_store : metrics_store_t) :
    Option metrics_store_t :=
  let rentry := base_metrics.get ⟨RELAY_METRICS_NUM_ONIONSKINS, by decide⟩
  fill_onionskins_values_loop x rentry (MAX_ONION_HANDSHAKE_TYPE + 2) 0 the_store

/-- Fill function for the `RELAY_METRICS_NUM_OOM_BYTES` metrics. -/
def fill_oom_values (x : Env) (the_store : metrics_store_t) : metrics_store_t :=
  let rentry := base_metrics.get ⟨RELAY_METRICS_NUM_OOM_BYTES, by decide⟩
  let (the_store, sentry) :=
    metrics_store_add the_store rentry.type rentry.name rentry.help
  let the_store := metrics_store_entry_add_label the_store sentry "subsys=cell"
  let the_store := metrics_store_entry_update the_store sentry
    x.oom_stats_n_bytes_removed_cell
  let (the_store, sentry) :=
    metrics_store_add the_store rentry.type rentry.name rentry.help
  let the_store := metrics_store_entry_add_label the_store sentry "subsys=dns"
  let the_store := metrics_store_entry_update the_store sentry
    x.oom_stats_n_bytes_removed_dns
  let (the_store, sentry) :=
    metrics_store_add the_store rentry.type rentry.name rentry.help
  let the_store := metrics_store_entry_add_label the_store sentry "subsys=geoip"
  let the_store := metrics_store_entry_update the_store sentry
    x.oom_stats_n_bytes_removed_geoip
  let (the_store, sentry) :=
    metrics_store_add the_store rentry.type rentry.name rentry.help
  let the_store := metrics_store_entry_add_label the_store sentry "subsys=hsdir"
  metrics_store_entry_update the_store sentry x.oom_stats_n_bytes_removed_hsdir

/-! ## The scrape -/

/-- Calling through a `fill_fn` pointer: runs the fill function it names on the
store `the_store` points to. -/
def call_fill_fn (x : Env) : fill_fn_t → metrics_store_t → Option metrics_store_t
  | fill_fn_t.fill_socket_values, the_store => some (fill_socket_values x the_store)
  | fill_fn_t.fill_onionskins_values, the_store => fill_onionskins_values x the_store
  | fill_fn_t.fill_oom_values, the_store => some (fill_oom_values x the_store)

/-- The loop of `fill_store`, `for (size_t i = 0; i < num_base_metrics; i++)`,
over a descriptor table, from the index `i` on: an entry without fill function
is skipped (`BUG(!fill_fn)`, `continue`), every other fill function is called.
The first argument bounds the number of loop tests still allowed; `i` stays
below the table length, so its increment never wraps. -/
def fill_store_loop (x : Env) (table : List relay_metrics_entry_t) :
    Nat → Nat → metrics_store_t → Option metrics_store_t
  | 0, _, _ => none
  | fuel + 1, i, the_store =>
    if h : i < table.length then
      match (table.get ⟨i, h⟩).fill_fn with
      | none => fill_store_loop x table fuel (i + 1) the_store
      | some fill_fn =>
        match call_fill_fn x fill_fn the_store with
        | none => none
        | some the_store => fill_store_loop x table fuel (i + 1) the_store
    else some the_store

/-- Reset the store and fill it with all the metrics from `base_metrics` and
their associated values. -/
def fill_store (x : Env) (the_store : metrics_store_t) : Option metrics_store_t :=
  let the_store := metrics_store_reset the_store
  fill_store_loop x base_metrics (num_base_metrics + 1) 0 the_store

/-! ## The process-wide state -/

/-- The state the file keeps between calls.  `heap` holds every store object
ever created by `metrics_store_new`, at the position that is its identity
(`none` once freed); `the_store` is the global pointer of that name and
`stores_list` the function-static list of `relay_metrics_get_stores` (`none`
is a null pointer, a list is given by the store pointers it holds). -/
structure State where
  heap : List (Option metrics_store_t)
  the_store : Option Nat
  stores_list : Option (List Nat)
  deriving DecidableEq, Repr

/-- The state at program start: no store object, both static pointers null. -/
def State.initial : State :=
  { heap := [], the_store := none, stores_list := none }

/-- The records of the store a pointer refers to; `none` when it refers to no
live store. -/
def State.deref (s : State) (p : Nat) : Option metrics_store_t :=
  s.heap[p]?.join

/-- Modelled from the spec: `metrics_store_new` of `lib/metrics` is not among
the sources; it creates a store that holds no record.  The new store has an
identity no store had before. -/
def metrics_store_new (s : State) : State × Nat :=
  ({ s with heap := s.heap ++ [some []] }, s.heap.length)

/-- Modelled from the spec: the macro `metrics_store_free` of `lib/metrics` is
not among the sources; applied to `the_store` it releases the store object and,
as the comment at its call says, sets `the_store` to null. -/
def metrics_store_free (s : State) (p : Nat) : State :=
  { s with heap := s.heap.set p none, the_store := none }

/-- `fill_store` on the process-wide state: the store `the_store` points to is
reset and refilled.  `none` when `the_store` is null or refers to no live
store (what the store library does then is outside the sources), or when a fill
function does not return. -/
def fill_store_global (x : Env) (s : State) : Option State :=
  match s.the_store with
  | none => none
  | some p =>
    match s.deref p with
    | none => none
    | some records =>
      match fill_store x records with
      | none => none
      | some records => some { s with heap := s.heap.set p (some records) }

/-- Return a list of all the relay metrics stores: the state after the call
and the store pointers held by the returned list. -/
def relay_metrics_get_stores (x : Env) (s : State) : Option (State × List Nat) :=
  match fill_store_global x s with
  | none => none
  | some s =>
    match s.stores_list, s.the_store with
    | some stores_list, _ => some (s, stores_list)
    | none, some p => some ({ s with stores_list := some [p] }, [p])
    | none, none => none -- not reached: `fill_store_global` needs `the_store`

/-- Initialize the relay metrics. -/
def relay_metrics_init (s : State) : State :=
  if s.the_store.isSome then s
  else
    let (s, p) := metrics_store_new s
    { s with the_store := some p }

/-- Free the relay metrics. -/
def relay_metrics_free (s : State) : State :=
  match s.the_store with
  | none => s
  | some p => metrics_store_free s p

/-- The counters of the specification's examples: sockets 7 of 100, handshakes
tap 3/1, fast 5/0, ntor 20/2, evictions cell 10, dns 20, geoip 0, hsdir 5; the
formatter writes name, an equals sign, value. -/
def example_env : Env :=
  { metrics_format_label := fun k v => k ++ "=" ++ v
    get_n_open_sockets := 7
    get_max_sockets := 100
    rep_hist_get_circuit_handshake_assigned := fun t =>
      if t = ONION_HANDSHAKE_TYPE_TAP then 3
      else if t = ONION_HANDSHAKE_TYPE_FAST then 5 else 20
    rep_hist_get_circuit_handshake_dropped := fun t =>
      if t = ONION_HANDSHAKE_TYPE_TAP then 1
      else if t = ONION_HANDSHAKE_TYPE_FAST then 0 else 2
    oom_stats_n_bytes_removed_cell := 10
    oom_stats_n_bytes_removed_dns := 20
    oom_stats_n_bytes_removed_geoip := 0
    oom_stats_n_bytes_removed_hsdir := 5 }

/-! ## The scrape over any descriptor table -/

/-- The body of `fill_store` with the descriptor table as an argument: the
store is reset and the loop runs over `table`, whose length takes the place of
`num_base_metrics`.  `fill_store` is its instance at `base_metrics`. -/
def fill_store_table (x : Env) (table : List relay_metrics_entry_t)
    (the_store : metrics_store_t) : Option metrics_store_t :=
  let the_store := metrics_store_reset the_store
  fill_store_loop x table (table.length + 1) 0 the_store

/-- Calling the fill functions of a list one after the other, in list order,
each on the store the previous one left. -/
def call_each (x : Env) : List fill_fn_t → metrics_store_t → Option metrics_store_t
  | [], the_store => some the_store
  | fill_fn :: rest, the_store =>
    match call_fill_fn x fill_fn the_store with
    | none => none
    | some the_store => call_each x rest the_store

/-- The record a fill function leaves for a descriptor: kind, name and help
text of the descriptor, with the given labels and value. -/
def record_of (d : relay_metrics_entry_t) (labels : List String) (value : Int) :
    metrics_store_entry_t :=
  { type := d.type, name := d.name, help := d.help, labels := labels, value := value }

/-! ## A scrape as a sequence of steps -/

/-- The steps `fill_store` takes one after the other: the reset of the store,
then the loop iteration at each index of `base_metrics`. -/
inductive scrape_step where
  | reset
  | iteration (i : Nat)
  deriving DecidableEq, Repr

/-- What one step of `fill_store` does to the store: the reset empties it; the
iteration at index `i` is the loop body, which skips an entry without fill
function and calls the fill function otherwise. -/
def scrape_step.run (x : Env) : scrape_step → metrics_store_t → Option metrics_store_t
  | scrape_step.reset, the_store => some (metrics_store_reset the_store)
  | scrape_step.iteration i, the_store =>
    if h : i < base_metrics.length then
      match (base_metrics.get ⟨i, h⟩).fill_fn with
      | none => some the_store
      | some fill_fn => call_fill_fn x fill_fn the_store
    else some the_store

/-- The steps of one scrape cycle, in program order. -/
def fill_store_steps : List scrape_step :=
  scrape_step.reset :: (List.range num_base_metrics).map scrape_step.iteration

/-- The two scrape cycles of an interleaving. -/
inductive cycle_t where
  | A
  | B
  deriving DecidableEq, Repr

/-- Running the steps of a schedule, each tagged with the cycle it belongs to,
one after the other on the one shared store. -/
def run_schedule (x : Env) :
    List (cycle_t × scrape_step) → metrics_store_t → Option metrics_store_t
  | [], the_store => some the_store
  | (_, step) :: rest, the_store =>
    match step.run x the_store with
    | none => none
    | some the_store => run_schedule x rest the_store

/-- The steps of a schedule that belong to one cycle, in schedule order. -/
def steps_of (c : cycle_t) (schedule : List (cycle_t × scrape_step)) : List scrape_step :=
  (schedule.filter (fun p => p.1 = c)).map (fun p => p.2)

/-- The constructed race: cycle A resets and runs its first fill function,
cycle B resets, cycle A runs its two other fill functions. -/
def race_schedule : List (cycle_t × scrape_step) :=
  [ (cycle_t.A, scrape_step.reset), (cycle_t.A, scrape_step.iteration 0),
    (cycle_t.B, scrape_step.reset),
    (cycle_t.A, scrape_step.iteration 1), (cycle_t.A, scrape_step.iteration 2) ]

/-- Modelled from the spec: the label formatter `metrics_format_label` of
`lib/metrics` is not among the sources; the spec takes a label to be a
(name, value) pair and writes it name, equals sign, value (`state=opened`,
`type=<kind>`, `action=processed`), which is the string built here. -/
def metrics_format_label (key value : String) : String :=
  key ++ "=" ++ value

/-! ## Store lemmas -/

theorem modify_append_length {α : Type} (f : α → α) (s t : List α) (k : Nat) :
    (s ++ t).modify f (s.length + k) = s ++ t.modify f k := by
  induction s with
  | nil => simp
  | cons a s ih => simpa [Nat.succ_add] using ih

theorem modify_append_length_zero {α : Type} (f : α → α) (s t : List α) :
    (s ++ t).modify f s.length = s ++ t.modify f 0 := by
  simpa using modify_append_length f s t 0

/-! ## The fill functions on an empty store -/

/-- C2: for every open-socket count and socket ceiling (and every label
formatter), `fill_socket_values` run on an empty store appends exactly two
records: first the record whose only label is the formatted `state`/`opened`
label, with the open-socket count as value, then a record without label, with
the socket ceiling as value.  With 7 open sockets and a ceiling of 100 the
values are 7 and 100. -/
theorem fill_socket_values_empty (x : Env) :
    fill_socket_values x [] =
      [ { type := METRICS_TYPE_GAUGE, name := METRICS_NAME "relay_load_socket_total",
          help := "Total number of sockets",
          labels := [x.metrics_format_label "state" "opened"],
          value := x.get_n_open_sockets },
        { type := METRICS_TYPE_GAUGE, name := METRICS_NAME "relay_load_socket_total",
          help := "Total number of sockets",
          labels := [],
          value := x.get_max_sockets } ]
    ∧ (fill_socket_values example_env []).map (fun e => (e.labels, e.value))
        = [(["state=opened"], 7), ([], 100)] := by
  constructor
  · rfl
  · decide

/-- C1: for every pair of handshake counter functions (and every label
formatter), `fill_onionskins_values` run on an empty store returns and appends
exactly 6 records, in the order tap/processed, tap/dropped, fast/processed,
fast/dropped, ntor/processed, ntor/dropped; each record carries exactly two
labels, the `type` label first and the `action` label second, and its value is
the processed (resp. dropped) counter of that kind.  With the counters tap 3/1,
fast 5/0, ntor 20/2 the values are 3, 1, 5, 0, 20, 2. -/
theorem fill_onionskins_values_empty (x : Env) :
    fill_onionskins_values x [] = some
      [ { type := METRICS_TYPE_COUNTER, name := METRICS_NAME "relay_load_onionskins_total",
          help := "Total number of onionskins handled",
          labels := [x.metrics_format_label "type" "tap",
                     x.metrics_format_label "action" "processed"],
          value := x.rep_hist_get_circuit_handshake_assigned ONION_HANDSHAKE_TYPE_TAP },
        { type := METRICS_TYPE_COUNTER, name := METRICS_NAME "relay_load_onionskins_total",
          help := "Total number of onionskins handled",
          labels := [x.metrics_format_label "type" "tap",
                     x.metrics_format_label "action" "dropped"],
          value := x.rep_hist_get_circuit_handshake_dropped ONION_HANDSHAKE_TYPE_TAP },
        { type := METRICS_TYPE_COUNTER, name := METRICS_NAME "relay_load_onionskins_total",
          help := "Total number of onionskins handled",
          labels := [x.metrics_format_label "type" "fast",
                     x.metrics_format_label "action" "processed"],
          value := x.rep_hist_get_circuit_handshake_assigned ONION_HANDSHAKE_TYPE_FAST },
        { type := METRICS_TYPE_COUNTER, name := METRICS_NAME "relay_load_onionskins_total",
          help := "Total number of onionskins handled",
          labels := [x.metrics_format_label "type" "fast",
                     x.metrics_format_label "action" "dropped"],
          value := x.rep_hist_get_circuit_handshake_dropped ONION_HANDSHAKE_TYPE_FAST },
        { type := METRICS_TYPE_COUNTER, name := METRICS_NAME "relay_load_onionskins_total",
          help := "Total number of onionskins handled",
          labels := [x.metrics_format_label "type" "ntor",
                     x.metrics_format_label "action" "processed"],
          value := x.rep_hist_get_circuit_handshake_assigned ONION_HANDSHAKE_TYPE_NTOR },
        { type := METRICS_TYPE_COUNTER, name := METRICS_NAME "relay_load_onionskins_total",
          help := "Total number of onionskins handled",
          labels := [x.metrics_format_label "type" "ntor",
                     x.metrics_format_label "action" "dropped"],
          value := x.rep_hist_get_circuit_handshake_dropped ONION_HANDSHAKE_TYPE_NTOR } ]
    ∧ (fill_onionskins_values example_env []).map
        (fun store => store.map (fun e => (e.labels, e.value)))
        = some [ (["type=tap", "action=processed"], 3), (["type=tap", "action=dropped"], 1),
                 (["type=fast", "action=processed"], 5), (["type=fast", "action=dropped"], 0),
                 (["type=ntor", "action=processed"], 20), (["type=ntor", "action=dropped"], 2) ] := by
  constructor
  · simp [fill_onionskins_values, fill_onionskins_values_loop, handshake_type_to_str,
      MAX_ONION_HANDSHAKE_TYPE, ONION_HANDSHAKE_TYPE_TAP, ONION_HANDSHAKE_TYPE_FAST,
      ONION_HANDSHAKE_TYPE_NTOR, metrics_store_add, metrics_store_entry_add_label,
      metrics_store_entry_update, base_metrics, RELAY_METRICS_NUM_ONIONSKINS]
  · simp [fill_onionskins_values, fill_onionskins_values_loop, handshake_type_to_str,
      MAX_ONION_HANDSHAKE_TYPE, ONION_HANDSHAKE_TYPE_TAP, ONION_HANDSHAKE_TYPE_FAST,
      ONION_HANDSHAKE_TYPE_NTOR, metrics_store_add, metrics_store_entry_add_label,
      metrics_store_entry_update, base_metrics, RELAY_METRICS_NUM_ONIONSKINS, example_env]

/-- C3: for every quadruple of eviction byte counters, `fill_oom_values` run on
an empty store appends exactly 4 records, in the order cell, dns, geoip, hsdir,
each carrying exactly one label, the one that names its subsystem, and the
value of that subsystem's counter; a counter equal to 0 still produces its
record.  With cell 10, dns 20, geoip 0, hsdir 5 the values are 10, 20, 0, 5. -/
theorem fill_oom_values_empty (x : Env) :
    fill_oom_values x [] =
      [ { type := METRICS_TYPE_COUNTER, name := METRICS_NAME "relay_load_oom_bytes_total",
          help := "Total number of bytes the OOM has freed by subsystem",
          labels := ["subsys=cell"], value := x.oom_stats_n_bytes_removed_cell },
        { type := METRICS_TYPE_COUNTER, name := METRICS_NAME "relay_load_oom_bytes_total",
          help := "Total number of bytes the OOM has freed by subsystem",
          labels := ["subsys=dns"], value := x.oom_stats_n_bytes_removed_dns },
        { type := METRICS_TYPE_COUNTER, name := METRICS_NAME "relay_load_oom_bytes_total",
          help := "Total number of bytes the OOM has freed by subsystem",
          labels := ["subsys=geoip"], value := x.oom_stats_n_bytes_removed_geoip },
        { type := METRICS_TYPE_COUNTER, name := METRICS_NAME "relay_load_oom_bytes_total",
          help := "Total number of bytes the OOM has freed by subsystem",
          labels := ["subsys=hsdir"], value := x.oom_stats_n_bytes_removed_hsdir } ]
    ∧ (fill_oom_values example_env []).map (fun e => (e.labels, e.value))
        = [(["subsys=cell"], 10), (["subsys=dns"], 20), (["subsys=geoip"], 0),
           (["subsys=hsdir"], 5)] := by
  constructor
  · rfl
  · decide

/-! ## The fill functions on any store -/

theorem fill_socket_values_append (x : Env) (store : metrics_store_t) :
    fill_socket_values x store = store ++ fill_socket_values x [] := by
  simp [fill_socket_values, metrics_store_add, metrics_store_entry_add_label,
    metrics_store_entry_update, modify_append_length_zero, modify_append_length]

theorem fill_oom_values_append (x : Env) (store : metrics_store_t) :
    fill_oom_values x store = store ++ fill_oom_values x [] := by
  simp [fill_oom_values, metrics_store_add, metrics_store_entry_add_label,
    metrics_store_entry_update, modify_append_length_zero, modify_append_length]

theorem fill_onionskins_values_append (x : Env) (store : metrics_store_t) :
    fill_onionskins_values x store
      = (fill_onionskins_values x []).map (fun records => store ++ records) := by
  simp [fill_onionskins_values, fill_onionskins_values_loop, handshake_type_to_str,
    MAX_ONION_HANDSHAKE_TYPE, ONION_HANDSHAKE_TYPE_TAP, ONION_HANDSHAKE_TYPE_FAST,
    ONION_HANDSHAKE_TYPE_NTOR, metrics_store_add, metrics_store_entry_add_label,
    metrics_store_entry_update, modify_append_length_zero, modify_append_length]

theorem fill_onionskins_values_length (x : Env) :
    ∃ records, fill_onionskins_values x [] = some records ∧ records.length = 6 := by
  simp [fill_onionskins_values, fill_onionskins_values_loop, handshake_type_to_str,
    MAX_ONION_HANDSHAKE_TYPE, ONION_HANDSHAKE_TYPE_TAP, ONION_HANDSHAKE_TYPE_FAST,
    ONION_HANDSHAKE_TYPE_NTOR, metrics_store_add, metrics_store_entry_add_label,
    metrics_store_entry_update]

/-! ## The scrape -/

/-- The loop of `fill_store` over `base_metrics`, started on a store `store`,
appends the records of the three fill functions in table order. -/
theorem fill_store_loop_base_metrics (x : Env) (store onionskins : metrics_store_t)
    (h : fill_onionskins_values x [] = some onionskins) :
    fill_store_loop x base_metrics (num_base_metrics + 1) 0 store
      = some (store ++ (fill_oom_values x [] ++ onionskins ++ fill_socket_values x [])) := by
  simp only [num_base_metrics, base_metrics, List.length_cons, List.length_nil,
    fill_store_loop]
  simp [call_fill_fn]
  rw [fill_onionskins_values_append, h, fill_oom_values_append]
  simp [fill_socket_values_append x (store ++ _)]

theorem fill_store_eq (x : Env) (store : metrics_store_t) :
    ∃ onionskins, fill_onionskins_values x [] = some onionskins ∧ onionskins.length = 6 ∧
      fill_store x store
        = some (fill_oom_values x [] ++ onionskins ++ fill_socket_values x []) := by
  obtain ⟨onionskins, h, hlen⟩ := fill_onionskins_values_length x
  refine ⟨onionskins, h, hlen, ?_⟩
  simp [fill_store, metrics_store_reset, fill_store_loop_base_metrics x [] onionskins h]

theorem fill_store_some (x : Env) (store : metrics_store_t) :
    ∃ records, fill_store x store = some records ∧ fill_store x [] = some records := by
  obtain ⟨onionskins, _, _, h⟩ := fill_store_eq x store
  obtain ⟨onionskins0, h1, _, h0⟩ := fill_store_eq x []
  have e : onionskins0 = onionskins := by simp_all
  exact ⟨_, h, by rw [h0, e]⟩

/-- C4: for every collaborator state (and every prior content of the store),
`fill_store` returns, and the record sequence of the store after it is the
concatenation, in the order of the descriptor table, of the records each
descriptor's fill function produces on its own, on an empty store: the 4
eviction records, then the 6 handshake records, then the 2 socket records, 12
records in total. -/
theorem fill_store_concatenation (x : Env) (store : metrics_store_t) :
    base_metrics.map (fun d => d.fill_fn)
      = [some fill_fn_t.fill_oom_values, some fill_fn_t.fill_onionskins_values,
         some fill_fn_t.fill_socket_values]
    ∧ ∃ oom onionskins sockets,
        call_fill_fn x fill_fn_t.fill_oom_values [] = some oom
        ∧ call_fill_fn x fill_fn_t.fill_onionskins_values [] = some onionskins
        ∧ call_fill_fn x fill_fn_t.fill_socket_values [] = some sockets
        ∧ fill_store x store = some (oom ++ onionskins ++ sockets)
        ∧ oom.length = 4 ∧ onionskins.length = 6 ∧ sockets.length = 2
        ∧ (oom ++ onionskins ++ sockets).length = 12 := by
  obtain ⟨onionskins, h, hlen, hfill⟩ := fill_store_eq x store
  refine ⟨by decide, fill_oom_values x [], onionskins, fill_socket_values x [],
    rfl, h, rfl, hfill, rfl, hlen, rfl, ?_⟩
  have h4 : (fill_oom_values x []).length = 4 := rfl
  have h2 : (fill_socket_values x []).length = 2 := rfl
  simp [h4, h2, hlen]

/-- C5: for every prior content of the store and every collaborator state, the
reset empties the store, `fill_store` returns, and the records held after it
are those obtained by running `fill_store` on an empty store with the same
collaborator state: no record of a prior scrape survives or influences the
result. -/
theorem fill_store_independent_of_prior (x : Env) (prior : metrics_store_t) :
    metrics_store_reset prior = []
    ∧ fill_store x prior = fill_store x []
    ∧ ∃ records, fill_store x prior = some records := by
  obtain ⟨records, h, h0⟩ := fill_store_some x prior
  exact ⟨rfl, by rw [h, h0], records, h⟩

/-- C7: for every index below the number of entries of `base_metrics` (there
are 3), the key of the entry at that position equals the index. -/
theorem base_metrics_key_eq_index :
    num_base_metrics = 3
    ∧ ∀ i : Fin base_metrics.length, (base_metrics.get i).key = i.val := by
  decide

/-! ## The process-wide state -/

theorem deref_lt (s : State) (p : Nat) (records : metrics_store_t)
    (h : s.deref p = some records) : p < s.heap.length := by
  by_contra hlt
  have hnone : s.heap[p]? = none := List.getElem?_eq_none (Nat.le_of_not_lt hlt)
  simp [State.deref, hnone] at h

theorem deref_set (heap : List (Option metrics_store_t)) (p : Nat) (l : Option (List Nat))
    (t : Option Nat) (v : Option metrics_store_t) (h : p < heap.length) :
    State.deref { heap := heap.set p v, the_store := t, stores_list := l } p = v := by
  simp [State.deref, List.getElem?_set, h]

theorem fill_store_global_eq (x : Env) (s : State) (p : Nat)
    (records filled : metrics_store_t) (hp : s.the_store = some p)
    (hlive : s.deref p = some records) (hfill : fill_store x records = some filled) :
    fill_store_global x s = some { s with heap := s.heap.set p (some filled) } := by
  simp [fill_store_global, hp, hlive, hfill]

theorem relay_metrics_get_stores_eq (x : Env) (s : State) (p : Nat)
    (records filled : metrics_store_t) (hp : s.the_store = some p)
    (hlive : s.deref p = some records) (hfill : fill_store x records = some filled) :
    relay_metrics_get_stores x s
      = some ({ heap := s.heap.set p (some filled), the_store := some p,
                stores_list := some (s.stores_list.getD [p]) },
              s.stores_list.getD [p]) := by
  rw [relay_metrics_get_stores, fill_store_global_eq x s p records filled hp hlive hfill]
  cases hl : s.stores_list <;> simp [hp, hl]

/-- C6: for every collaborator state and every program state in which
`the_store` is a live store, two consecutive `relay_metrics_get_stores` calls
with no change in between both return, with the same list, and every store
read through the returned list, as well as the store `the_store` points to,
holds the identical record sequence (names, kinds, help texts, label sets in
order, values) after the first call and after the second. -/
theorem relay_metrics_get_stores_twice (x : Env) (s : State) (p : Nat)
    (records : metrics_store_t) (hp : s.the_store = some p)
    (hlive : s.deref p = some records) :
    ∃ s1 l1 s2 l2,
      relay_metrics_get_stores x s = some (s1, l1)
      ∧ relay_metrics_get_stores x s1 = some (s2, l2)
      ∧ l1 = l2
      ∧ l1.map s1.deref = l2.map s2.deref
      ∧ s1.the_store = some p ∧ s2.the_store = some p
      ∧ ∃ filled, s1.deref p = some filled ∧ s2.deref p = some filled := by
  obtain ⟨filled, hf, hf0⟩ := fill_store_some x records
  obtain ⟨filled1, hf1, hf10⟩ := fill_store_some x filled
  have e : filled1 = filled := by
    rw [hf0] at hf10
    exact (Option.some.inj hf10).symm
  rw [e] at hf1
  have hlt := deref_lt s p records hlive
  have h1 := relay_metrics_get_stores_eq x s p records filled hp hlive hf
  have hlive1 := deref_set s.heap p (some (s.stores_list.getD [p])) (some p) (some filled) hlt
  have h2 := relay_metrics_get_stores_eq x _ p filled filled rfl hlive1 hf1
  refine ⟨_, _, _, _, h1, h2, ?_, ?_, rfl, rfl, filled, hlive1, ?_⟩
  · simp
  · simp [State.deref]
  · simp [State.deref, hlt]

/-- Witness for C6: the state right after `relay_metrics_init` at program
start, with the counters of the specification's examples. -/
theorem relay_metrics_get_stores_twice_witness :
    (relay_metrics_init State.initial).the_store = some 0
    ∧ (relay_metrics_init State.initial).deref 0 = some []
    ∧ ∃ s1 l1 s2 l2,
      relay_metrics_get_stores example_env (relay_metrics_init State.initial) = some (s1, l1)
      ∧ relay_metrics_get_stores example_env s1 = some (s2, l2)
      ∧ l1 = l2
      ∧ l1.map s1.deref = l2.map s2.deref
      ∧ s1.the_store = some 0 ∧ s2.the_store = some 0
      ∧ ∃ filled, s1.deref 0 = some filled ∧ s2.deref 0 = some filled :=
  ⟨rfl, rfl,
   relay_metrics_get_stores_twice example_env (relay_metrics_init State.initial) 0 [] rfl rfl⟩

/-- C8: `relay_metrics_init` called when the store is already initialized is a
no-op: in every state in which `the_store` is set, the whole state (the store
identity, its record sequence, the set of store objects) is unchanged.  Called
when `the_store` is unset, it creates one store object, new (no store had its
identity before) and empty, sets `the_store` to it, and leaves the other store
objects and `stores_list` as they were. -/
theorem relay_metrics_init_spec (s : State) :
    (s.the_store.isSome = true → relay_metrics_init s = s)
    ∧ (s.the_store = none →
        (relay_metrics_init s).the_store = some s.heap.length
        ∧ s.deref s.heap.length = none
        ∧ (relay_metrics_init s).deref s.heap.length = some []
        ∧ (relay_metrics_init s).heap = s.heap ++ [some []]
        ∧ (relay_metrics_init s).stores_list = s.stores_list) := by
  constructor
  · intro h
    simp [relay_metrics_init, h]
  · intro h
    simp [relay_metrics_init, h, metrics_store_new, State.deref]

/-- Witness for C8: a second `relay_metrics_init` right after the first, and
the first `relay_metrics_init` at program start. -/
theorem relay_metrics_init_spec_witness :
    relay_metrics_init (relay_metrics_init State.initial) = relay_metrics_init State.initial
    ∧ (relay_metrics_init State.initial).the_store = some 0
    ∧ State.initial.deref 0 = none
    ∧ (relay_metrics_init State.initial).deref 0 = some []
    ∧ (relay_metrics_init State.initial).heap = [some []]
    ∧ (relay_metrics_init State.initial).stores_list = none :=
  ⟨(relay_metrics_init_spec (relay_metrics_init State.initial)).1 rfl,
   (relay_metrics_init_spec State.initial).2 rfl⟩

/-- C9: `relay_metrics_free` is idempotent: in every state, calling it twice in
a row leaves the same state as calling it once, with `the_store` unset; called
when `the_store` is unset it changes nothing. -/
theorem relay_metrics_free_idempotent (s : State) :
    relay_metrics_free (relay_metrics_free s) = relay_metrics_free s
    ∧ (relay_metrics_free s).the_store = none
    ∧ (s.the_store = none → relay_metrics_free s = s) := by
  cases h : s.the_store <;> simp [relay_metrics_free, metrics_store_free, h]

/-- Witness for C9: `relay_metrics_free` at program start, where `the_store`
is unset. -/
theorem relay_metrics_free_idempotent_witness :
    State.initial.the_store = none ∧ relay_metrics_free State.initial = State.initial :=
  ⟨rfl, (relay_metrics_free_idempotent State.initial).2.2 rfl⟩

/-- C10, evaluated on the calls init, get_stores, free, init, get_stores from
program start: the first `relay_metrics_get_stores` returns the list holding
store 0, which is `the_store`; the second returns the same list, still holding
store 0, which has been freed, while `the_store` is the live store 1 that the
scrape has just filled. -/
theorem relay_metrics_get_stores_stale_list (x : Env) :
    ∃ s2 s5,
      relay_metrics_get_stores x (relay_metrics_init State.initial) = some (s2, [0])
      ∧ s2.the_store = some 0
      ∧ relay_metrics_get_stores x (relay_metrics_init (relay_metrics_free s2)) = some (s5, [0])
      ∧ s5.the_store = some 1
      ∧ s5.deref 0 = none
      ∧ s5.deref 1 = fill_store x [] ∧ (s5.deref 1).isSome = true := by
  obtain ⟨filled, hf, _⟩ := fill_store_some x []
  have h1 := relay_metrics_get_stores_eq x (relay_metrics_init State.initial) 0 [] filled
    rfl rfl hf
  have h2 := relay_metrics_get_stores_eq x
    { heap := [none, some []], the_store := some 1, stores_list := some [0] } 1 [] filled
    rfl rfl hf
  refine ⟨{ heap := [some filled], the_store := some 0, stores_list := some [0] },
    { heap := [none, some filled], the_store := some 1, stores_list := some [0] },
    h1, rfl, h2, rfl, rfl, ?_, rfl⟩
  rw [hf]
  rfl

/-! ## The scrape over any descriptor table -/

theorem call_fill_fn_some (x : Env) (fill_fn : fill_fn_t) (store : metrics_store_t) :
    ∃ records, call_fill_fn x fill_fn store = some records := by
  cases fill_fn with
  | fill_socket_values => exact ⟨_, rfl⟩
  | fill_oom_values => exact ⟨_, rfl⟩
  | fill_onionskins_values =>
    obtain ⟨records, h, _⟩ := fill_onionskins_values_length x
    exact ⟨store ++ records, by simp [call_fill_fn, fill_onionskins_values_append x store, h]⟩

theorem call_each_some (x : Env) (fns : List fill_fn_t) (store : metrics_store_t) :
    ∃ records, call_each x fns store = some records := by
  induction fns generalizing store with
  | nil => exact ⟨store, rfl⟩
  | cons f fs ih =>
    obtain ⟨mid, hmid⟩ := call_fill_fn_some x f store
    obtain ⟨records, h⟩ := ih mid
    exact ⟨records, by simp [call_each, hmid, h]⟩

theorem fill_store_loop_eq_call_each (x : Env) (table : List relay_metrics_entry_t)
    (fuel i : Nat) (store : metrics_store_t) (hfuel : table.length - i < fuel) :
    fill_store_loop x table fuel i store
      = call_each x ((table.drop i).filterMap (fun d => d.fill_fn)) store := by
  induction fuel generalizing i store with
  | zero => omega
  | succ fuel ih =>
    rw [fill_store_loop]
    by_cases h : i < table.length
    · have hdrop : table.drop i = table.get ⟨i, h⟩ :: table.drop (i + 1) :=
        List.drop_eq_getElem_cons h
      simp only [h, dif_pos, hdrop]
      cases hfn : (table.get ⟨i, h⟩).fill_fn with
      | none =>
        simp only [List.filterMap_cons, hfn]
        exact ih (i + 1) store (by omega)
      | some f =>
        simp only [List.filterMap_cons, hfn, call_each]
        cases hcall : call_fill_fn x f store with
        | none => rfl
        | some mid => exact ih (i + 1) mid (by omega)
    · have hdrop : table.drop i = [] := List.drop_eq_nil_of_le (Nat.le_of_not_lt h)
      simp [h, hdrop, call_each]

theorem filterMap_fill_fn_filter (table : List relay_metrics_entry_t) :
    (table.filter (fun d => d.fill_fn.isSome)).filterMap (fun d => d.fill_fn)
      = table.filterMap (fun d => d.fill_fn) := by
  induction table with
  | nil => rfl
  | cons d ds ih =>
    cases hfn : d.fill_fn with
    | none => simp [List.filter_cons, List.filterMap_cons, hfn, ih]
    | some f => simp [List.filter_cons, List.filterMap_cons, hfn, ih]

theorem fill_store_table_eq_call_each (x : Env) (table : List relay_metrics_entry_t)
    (store : metrics_store_t) :
    fill_store_table x table store
      = call_each x (table.filterMap (fun d => d.fill_fn)) [] := by
  simp [fill_store_table, metrics_store_reset,
    fill_store_loop_eq_call_each x table (table.length + 1) 0 [] (by omega)]

/-- C11: for `fill_store` over any descriptor table (`fill_store` itself being
the case of `base_metrics`), the scrape returns; a descriptor whose fill
function is missing contributes nothing, and every other descriptor's fill
function is called, in table order: the record sequence is that of calling the
fill functions present one after the other on the reset store, and it equals
the record sequence for the table with the defective descriptors removed. -/
theorem fill_store_table_skips_missing (x : Env) (table : List relay_metrics_entry_t)
    (store : metrics_store_t) :
    fill_store x store = fill_store_table x base_metrics store
    ∧ fill_store_table x table store
        = fill_store_table x (table.filter (fun d => d.fill_fn.isSome)) store
    ∧ fill_store_table x table store
        = call_each x (table.filterMap (fun d => d.fill_fn)) []
    ∧ ∃ records, fill_store_table x table store = some records := by
  refine ⟨rfl, ?_, fill_store_table_eq_call_each x table store, ?_⟩
  · rw [fill_store_table_eq_call_each, fill_store_table_eq_call_each,
      filterMap_fill_fn_filter]
  · rw [fill_store_table_eq_call_each]
    exact call_each_some x _ []

/-! ## The records of a scrape, written out -/

theorem fill_onionskins_values_records (x : Env) :
    fill_onionskins_values x [] = some
      [ record_of (base_metrics.get ⟨RELAY_METRICS_NUM_ONIONSKINS, by decide⟩)
          [x.metrics_format_label "type" "tap", x.metrics_format_label "action" "processed"]
          (x.rep_hist_get_circuit_handshake_assigned ONION_HANDSHAKE_TYPE_TAP),
        record_of (base_metrics.get ⟨RELAY_METRICS_NUM_ONIONSKINS, by decide⟩)
          [x.metrics_format_label "type" "tap", x.metrics_format_label "action" "dropped"]
          (x.rep_hist_get_circuit_handshake_dropped ONION_HANDSHAKE_TYPE_TAP),
        record_of (base_metrics.get ⟨RELAY_METRICS_NUM_ONIONSKINS, by decide⟩)
          [x.metrics_format_label "type" "fast", x.metrics_format_label "action" "processed"]
          (x.rep_hist_get_circuit_handshake_assigned ONION_HANDSHAKE_TYPE_FAST),
        record_of (base_metrics.get ⟨RELAY_METRICS_NUM_ONIONSKINS, by decide⟩)
          [x.metrics_format_label "type" "fast", x.metrics_format_label "action" "dropped"]
          (x.rep_hist_get_circuit_handshake_dropped ONION_HANDSHAKE_TYPE_FAST),
        record_of (base_metrics.get ⟨RELAY_METRICS_NUM_ONIONSKINS, by decide⟩)
          [x.metrics_format_label "type" "ntor", x.metrics_format_label "action" "processed"]
          (x.rep_hist_get_circuit_handshake_assigned ONION_HANDSHAKE_TYPE_NTOR),
        record_of (base_metrics.get ⟨RELAY_METRICS_NUM_ONIONSKINS, by decide⟩)
          [x.metrics_format_label "type" "ntor", x.metrics_format_label "action" "dropped"]
          (x.rep_hist_get_circuit_handshake_dropped ONION_HANDSHAKE_TYPE_NTOR) ] := by
  simp [fill_onionskins_values, fill_onionskins_values_loop, handshake_type_to_str,
    MAX_ONION_HANDSHAKE_TYPE, ONION_HANDSHAKE_TYPE_TAP, ONION_HANDSHAKE_TYPE_FAST,
    ONION_HANDSHAKE_TYPE_NTOR, metrics_store_add, metrics_store_entry_add_label,
    metrics_store_entry_update, record_of]

theorem fill_store_records (x : Env) (store : metrics_store_t) :
    fill_store x store = some
      [ record_of (base_metrics.get ⟨RELAY_METRICS_NUM_OOM_BYTES, by decide⟩)
          ["subsys=cell"] x.oom_stats_n_bytes_removed_cell,
        record_of (base_metrics.get ⟨RELAY_METRICS_NUM_OOM_BYTES, by decide⟩)
          ["subsys=dns"] x.oom_stats_n_bytes_removed_dns,
        record_of (base_metrics.get ⟨RELAY_METRICS_NUM_OOM_BYTES, by decide⟩)
          ["subsys=geoip"] x.oom_stats_n_bytes_removed_geoip,
        record_of (base_metrics.get ⟨RELAY_METRICS_NUM_OOM_BYTES, by decide⟩)
          ["subsys=hsdir"] x.oom_stats_n_bytes_removed_hsdir,
        record_of (base_metrics.get ⟨RELAY_METRICS_NUM_ONIONSKINS, by decide⟩)
          [x.metrics_format_label "type" "tap", x.metrics_format_label "action" "processed"]
          (x.rep_hist_get_circuit_handshake_assigned ONION_HANDSHAKE_TYPE_TAP),
        record_of (base_metrics.get ⟨RELAY_METRICS_NUM_ONIONSKINS, by decide⟩)
          [x.metrics_format_label "type" "tap", x.metrics_format_label "action" "dropped"]
          (x.rep_hist_get_circuit_handshake_dropped ONION_HANDSHAKE_TYPE_TAP),
        record_of (base_metrics.get ⟨RELAY_METRICS_NUM_ONIONSKINS, by decide⟩)
          [x.metrics_format_label "type" "fast", x.metrics_format_label "action" "processed"]
          (x.rep_hist_get_circuit_handshake_assigned ONION_HANDSHAKE_TYPE_FAST),
        record_of (base_metrics.get ⟨RELAY_METRICS_NUM_ONIONSKINS, by decide⟩)
          [x.metrics_format_label "type" "fast", x.metrics_format_label "action" "dropped"]
          (x.rep_hist_get_circuit_handshake_dropped ONION_HANDSHAKE_TYPE_FAST),
        record_of (base_metrics.get ⟨RELAY_METRICS_NUM_ONIONSKINS, by decide⟩)
          [x.metrics_format_label "type" "ntor", x.metrics_format_label "action" "processed"]
          (x.rep_hist_get_circuit_handshake_assigned ONION_HANDSHAKE_TYPE_NTOR),
        record_of (base_metrics.get ⟨RELAY_METRICS_NUM_ONIONSKINS, by decide⟩)
          [x.metrics_format_label "type" "ntor", x.metrics_format_label "action" "dropped"]
          (x.rep_hist_get_circuit_handshake_dropped ONION_HANDSHAKE_TYPE_NTOR),
        record_of (base_metrics.get ⟨RELAY_METRICS_NUM_SOCKETS, by decide⟩)
          [x.metrics_format_label "state" "opened"] x.get_n_open_sockets,
        record_of (base_metrics.get ⟨RELAY_METRICS_NUM_SOCKETS, by decide⟩)
          [] x.get_max_sockets ] := by
  obtain ⟨onionskins, h, _, hfill⟩ := fill_store_eq x store
  rw [fill_onionskins_values_records] at h
  rw [hfill, ← Option.some.inj h]
  rfl

/-- C12: for every value `t` the loop of `fill_onionskins_values` passes to
`handshake_type_to_str`, that is every `t` from 0 to
`MAX_ONION_HANDSHAKE_TYPE`, the function returns one of "tap", "fast", "ntor"
and its default branch (`tor_assert_unreached`) is not reached; the three
strings, returned for the three handshake types, are pairwise distinct. -/
theorem handshake_type_to_str_in_range (t : Nat) (h : t ≤ MAX_ONION_HANDSHAKE_TYPE) :
    (handshake_type_to_str t = some "tap" ∨ handshake_type_to_str t = some "fast"
      ∨ handshake_type_to_str t = some "ntor")
    ∧ handshake_type_to_str t ≠ none
    ∧ handshake_type_to_str ONION_HANDSHAKE_TYPE_TAP = some "tap"
    ∧ handshake_type_to_str ONION_HANDSHAKE_TYPE_FAST = some "fast"
    ∧ handshake_type_to_str ONION_HANDSHAKE_TYPE_NTOR = some "ntor"
    ∧ "tap" ≠ "fast" ∧ "tap" ≠ "ntor" ∧ "fast" ≠ "ntor" := by
  have ht : t = 0 ∨ t = 1 ∨ t = 2 := by
    simp only [MAX_ONION_HANDSHAKE_TYPE] at h
    omega
  rcases ht with rfl | rfl | rfl <;> decide

/-- Witness for C12: the largest handshake type, `t = 2`. -/
theorem handshake_type_to_str_in_range_witness :
    2 ≤ MAX_ONION_HANDSHAKE_TYPE
    ∧ (handshake_type_to_str 2 = some "tap" ∨ handshake_type_to_str 2 = some "fast"
      ∨ handshake_type_to_str 2 = some "ntor")
    ∧ handshake_type_to_str 2 ≠ none
    ∧ handshake_type_to_str ONION_HANDSHAKE_TYPE_TAP = some "tap"
    ∧ handshake_type_to_str ONION_HANDSHAKE_TYPE_FAST = some "fast"
    ∧ handshake_type_to_str ONION_HANDSHAKE_TYPE_NTOR = some "ntor"
    ∧ "tap" ≠ "fast" ∧ "tap" ≠ "ntor" ∧ "fast" ≠ "ntor" :=
  ⟨by decide, handshake_type_to_str_in_range 2 (by decide)⟩

/-- C13: every record in the store after `fill_store` carries the kind, name
and help text of the descriptor whose fill function created it: the first 4
records (evictions) those of the `base_metrics` entry keyed
`RELAY_METRICS_NUM_OOM_BYTES`, of kind counter; the next 6 (handshakes) those
of the entry keyed `RELAY_METRICS_NUM_ONIONSKINS`, of kind counter; the last 2
(sockets) those of the entry keyed `RELAY_METRICS_NUM_SOCKETS`, of kind gauge;
and the `fill_fn` of each of these entries is the fill function that reads that
entry. -/
theorem fill_store_records_carry_descriptor (x : Env) (store : metrics_store_t) :
    ∃ records d_oom d_onionskins d_sockets,
      fill_store x store = some records
      ∧ d_oom = base_metrics.get ⟨RELAY_METRICS_NUM_OOM_BYTES, by decide⟩
      ∧ d_onionskins = base_metrics.get ⟨RELAY_METRICS_NUM_ONIONSKINS, by decide⟩
      ∧ d_sockets = base_metrics.get ⟨RELAY_METRICS_NUM_SOCKETS, by decide⟩
      ∧ records.map (fun e => (e.type, e.name, e.help))
          = List.replicate 4 (d_oom.type, d_oom.name, d_oom.help)
            ++ List.replicate 6 (d_onionskins.type, d_onionskins.name, d_onionskins.help)
            ++ List.replicate 2 (d_sockets.type, d_sockets.name, d_sockets.help)
      ∧ d_oom.key = RELAY_METRICS_NUM_OOM_BYTES
      ∧ d_oom.type = METRICS_TYPE_COUNTER
      ∧ d_oom.fill_fn = some fill_fn_t.fill_oom_values
      ∧ d_onionskins.key = RELAY_METRICS_NUM_ONIONSKINS
      ∧ d_onionskins.type = METRICS_TYPE_COUNTER
      ∧ d_onionskins.fill_fn = some fill_fn_t.fill_onionskins_values
      ∧ d_sockets.key = RELAY_METRICS_NUM_SOCKETS
      ∧ d_sockets.type = METRICS_TYPE_GAUGE
      ∧ d_sockets.fill_fn = some fill_fn_t.fill_socket_values := by
  exact ⟨_, _, _, _, fill_store_records x store, rfl, rfl, rfl, rfl,
    rfl, rfl, rfl, rfl, rfl, rfl, rfl, rfl, rfl⟩

/-- C15: every entry of `base_metrics` has a fill function, so the test
`BUG(!fill_fn)` of `fill_store` is false at every index of the table: no
descriptor is skipped in a scrape, and for every collaborator state (and every
prior content of the store) `fill_store` returns with 12 records. -/
theorem base_metrics_fill_fn_present (x : Env) (store : metrics_store_t) :
    (∀ i : Fin base_metrics.length, (base_metrics.get i).fill_fn.isSome = true)
    ∧ base_metrics.filter (fun d => d.fill_fn.isSome) = base_metrics
    ∧ ∃ records, fill_store x store = some records ∧ records.length = 12 := by
  refine ⟨by decide, by decide, _, fill_store_records x store, rfl⟩

/-! ## Interleaved scrape cycles -/

theorem run_reset (x : Env) (store : metrics_store_t) :
    scrape_step.reset.run x store = some [] := rfl

theorem run_iteration_oom (x : Env) (store : metrics_store_t) :
    (scrape_step.iteration 0).run x store = some (store ++ fill_oom_values x []) := by
  rw [← fill_oom_values_append]
  rfl

theorem run_iteration_onionskins (x : Env) (store onionskins : metrics_store_t)
    (h : fill_onionskins_values x [] = some onionskins) :
    (scrape_step.iteration 1).run x store = some (store ++ onionskins) := by
  have e : (scrape_step.iteration 1).run x store = fill_onionskins_values x store := rfl
  rw [e, fill_onionskins_values_append, h]
  rfl

theorem run_iteration_sockets (x : Env) (store : metrics_store_t) :
    (scrape_step.iteration 2).run x store = some (store ++ fill_socket_values x []) := by
  rw [← fill_socket_values_append]
  rfl

theorem run_schedule_serial (x : Env) (store : metrics_store_t) :
    run_schedule x (fill_store_steps.map (fun step => (cycle_t.A, step))) store
      = fill_store x store := by
  obtain ⟨onionskins, h, _, hfill⟩ := fill_store_eq x store
  have e : fill_store_steps.map (fun step => (cycle_t.A, step))
      = [ (cycle_t.A, scrape_step.reset), (cycle_t.A, scrape_step.iteration 0),
          (cycle_t.A, scrape_step.iteration 1), (cycle_t.A, scrape_step.iteration 2) ] := rfl
  rw [e, hfill]
  simp [run_schedule, run_reset, run_iteration_oom, run_iteration_sockets,
    run_iteration_onionskins x _ onionskins h]

/-- C14: interleaving two scrape cycles on the same store without serialization
corrupts the first cycle's record set.  Run alone, the steps of a cycle give
what `fill_store` gives, 12 records.  In the schedule `race_schedule`, cycle A
takes all its steps in order and cycle B only its reset, which falls between
A's first and second fill function; when A's last fill function returns the
store holds the 6 handshake and 2 socket records only, the 4 eviction records A
produced before B's reset are missing, and the store differs from the one a
serialized scrape yields. -/
theorem interleaved_scrape_loses_records (x : Env) (store : metrics_store_t) :
    run_schedule x (fill_store_steps.map (fun step => (cycle_t.A, step))) store
      = fill_store x store
    ∧ steps_of cycle_t.A race_schedule = fill_store_steps
    ∧ steps_of cycle_t.B race_schedule = [scrape_step.reset]
    ∧ race_schedule.take 3
        = [ (cycle_t.A, scrape_step.reset), (cycle_t.A, scrape_step.iteration 0),
            (cycle_t.B, scrape_step.reset) ]
    ∧ ∃ serial onionskins,
        fill_store x store = some serial
        ∧ serial.length = 12
        ∧ fill_onionskins_values x [] = some onionskins
        ∧ serial = fill_oom_values x [] ++ (onionskins ++ fill_socket_values x [])
        ∧ (fill_oom_values x []).length = 4
        ∧ run_schedule x race_schedule store = some (onionskins ++ fill_socket_values x [])
        ∧ (onionskins ++ fill_socket_values x []).length = 8
        ∧ run_schedule x race_schedule store ≠ fill_store x store := by
  obtain ⟨onionskins, h, hlen, hfill⟩ := fill_store_eq x store
  have hrace : run_schedule x race_schedule store
      = some (onionskins ++ fill_socket_values x []) := by
    simp [race_schedule, run_schedule, run_reset, run_iteration_oom, run_iteration_sockets,
      run_iteration_onionskins x _ onionskins h]
  have h2 : (fill_socket_values x []).length = 2 := rfl
  have h4 : (fill_oom_values x []).length = 4 := rfl
  refine ⟨run_schedule_serial x store, by decide, by decide, by decide, _, onionskins,
    hfill, ?_, h, ?_, h4, hrace, ?_, ?_⟩
  · simp [hlen, h2, h4]
  · simp
  · simp [hlen, h2]
  · rw [hrace, hfill]
    intro heq
    have hl := congrArg List.length (Option.some.inj heq)
    simp [hlen, h2, h4] at hl

/-! ## Names and labels of a snapshot -/

/-- C16: in the store after `fill_store`, for every collaborator state, no two
distinct records have both the same name and the same label set, provided the
label formatter (which is outside this file) keeps the three handshake kinds
apart under `type` and the two actions apart under `action`: the list of
(name, ordered label set) pairs of the 12 records has no duplicate. -/
theorem fill_store_name_labels_nodup (x : Env) (store : metrics_store_t)
    (h_tap_fast : x.metrics_format_label "type" "tap" ≠ x.metrics_format_label "type" "fast")
    (h_tap_ntor : x.metrics_format_label "type" "tap" ≠ x.metrics_format_label "type" "ntor")
    (h_fast_ntor : x.metrics_format_label "type" "fast" ≠ x.metrics_format_label "type" "ntor")
    (h_action : x.metrics_format_label "action" "processed"
      ≠ x.metrics_format_label "action" "dropped") :
    ∃ records, fill_store x store = some records
      ∧ records.length = 12
      ∧ (records.map (fun e => (e.name, e.labels))).Nodup := by
  refine ⟨_, fill_store_records x store, rfl, ?_⟩
  have n01 : METRICS_NAME "relay_load_oom_bytes_total"
      ≠ METRICS_NAME "relay_load_onionskins_total" := by decide
  have n02 : METRICS_NAME "relay_load_oom_bytes_total"
      ≠ METRICS_NAME "relay_load_socket_total" := by decide
  have n12 : METRICS_NAME "relay_load_onionskins_total"
      ≠ METRICS_NAME "relay_load_socket_total" := by decide
  simp [record_of, base_metrics, RELAY_METRICS_NUM_OOM_BYTES, RELAY_METRICS_NUM_ONIONSKINS,
    RELAY_METRICS_NUM_SOCKETS, n01, n02, n12, h_tap_fast, h_tap_ntor, h_fast_ntor, h_action,
    Ne.symm h_tap_fast, Ne.symm h_tap_ntor, Ne.symm h_fast_ntor, Ne.symm h_action]

/-- Witness for C16: the counters of the specification's examples, with the
formatter that writes name, equals sign, value. -/
theorem fill_store_name_labels_nodup_witness :
    example_env.metrics_format_label "type" "tap"
      ≠ example_env.metrics_format_label "type" "fast"
    ∧ example_env.metrics_format_label "type" "tap"
      ≠ example_env.metrics_format_label "type" "ntor"
    ∧ example_env.metrics_format_label "type" "fast"
      ≠ example_env.metrics_format_label "type" "ntor"
    ∧ example_env.metrics_format_label "action" "processed"
      ≠ example_env.metrics_format_label "action" "dropped"
    ∧ ∃ records, fill_store example_env [] = some records
      ∧ records.length = 12
      ∧ (records.map (fun e => (e.name, e.labels))).Nodup :=
  ⟨by decide, by decide, by decide, by decide,
   fill_store_name_labels_nodup example_env [] (by decide) (by decide) (by decide)
     (by decide)⟩

end RelayMetrics
